import Mathlib

/-!
Shallow embedding of the record store of the hospital-management server
(`MemStorage` in server/storage.ts) and of its route handlers
(server/routes.ts).  JavaScript `Map`s are modelled as insertion-ordered
association lists; `Date` timestamps as natural numbers of milliseconds
since the epoch in the reference timezone of the server; `Partial<T>` payloads
as records of `Option` fields, and the object spread `{ ...a, ...p }` as a
field-wise `Option.getD`.
-/

namespace Hospital

/-- Model of a JavaScript `Map` with `Nat` keys: an association list in
insertion order (JS `Map` iteration order). -/
abbrev JsMap (α : Type) := List (Nat × α)

namespace JsMap

/-- `Map.prototype.get`. -/
def get {α : Type} : JsMap α → Nat → Option α
  | [], _ => none
  | (k, v) :: rest, k2 => if k = k2 then some v else get rest k2

/-- `Map.prototype.set`: overwrite in place if the key is present,
append otherwise. -/
def set {α : Type} : JsMap α → Nat → α → JsMap α
  | [], k, v => [(k, v)]
  | (k2, v2) :: rest, k, v =>
      if k2 = k then (k, v) :: rest else (k2, v2) :: set rest k v

/-- `Array.from(map.values())`: the values in insertion order. -/
def values {α : Type} (m : JsMap α) : List α := m.map Prod.snd

theorem get_set_self {α : Type} (m : JsMap α) (k : Nat) (v : α) :
    (m.set k v).get k = some v := by
  induction m with
  | nil => simp [set, get]
  | cons hd tl ih =>
    obtain ⟨k2, v2⟩ := hd
    by_cases h : k2 = k
    · subst h; simp [set, get]
    · simp [set, get, h, ih]

end JsMap

/-- User record (shared/types/user.ts, `SelectUser`). -/
structure User where
  id : Nat
  username : String
  password : String
  email : String
  fullName : String
  role : String
  specialization : Option String
  contactNumber : Option String
  address : Option String
deriving DecidableEq

/-- `InsertUser = Omit<SelectUser, "id">` (shared/types/user.ts). -/
structure InsertUser where
  username : String
  password : String
  email : String
  fullName : String
  role : String
  specialization : Option String
  contactNumber : Option String
  address : Option String
deriving DecidableEq

/-- Appointment record, from the `appointments` pgTable of
shared/schema.ts: id (serial), patientId, doctorId (integers),
appointmentDate (timestamp, here ms), duration (minutes), status, type
(text), notes (nullable text). -/
structure Appointment where
  id : Nat
  patientId : Nat
  doctorId : Nat
  appointmentDate : Nat
  duration : Nat
  status : String
  type : String
  notes : Option String
deriving DecidableEq

/-- `InsertAppointment`: `insertAppointmentSchema` of shared/schema.ts
picks every Appointment field except the id. -/
structure InsertAppointment where
  patientId : Nat
  doctorId : Nat
  appointmentDate : Nat
  duration : Nat
  status : String
  type : String
  notes : Option String
deriving DecidableEq

/-- `Partial<Appointment>`: every field, the id included, may be absent. -/
structure AppointmentUpdate where
  id : Option Nat := none
  patientId : Option Nat := none
  doctorId : Option Nat := none
  appointmentDate : Option Nat := none
  duration : Option Nat := none
  status : Option String := none
  type : Option String := none
  notes : Option (Option String) := none
deriving DecidableEq

/-- Bed record: fields as used by `MemStorage.initializeData` and
spec section 3 (bedNumber, ward, status, patientId). -/
structure Bed where
  id : Nat
  bedNumber : String
  ward : String
  status : String
  patientId : Option Nat
deriving DecidableEq

/-- `InsertBed` (Bed without id). -/
structure InsertBed where
  bedNumber : String
  ward : String
  status : String
  patientId : Option Nat
deriving DecidableEq

/-- `Partial<Bed>`. -/
structure BedUpdate where
  id : Option Nat := none
  bedNumber : Option String := none
  ward : Option String := none
  status : Option String := none
  patientId : Option (Option Nat) := none
deriving DecidableEq

/-- Prescription record, from the `prescriptions` pgTable of
shared/schema.ts: id (serial), patientId, doctorId (integers),
prescriptionDate (timestamp, here ms), status (text), notes, fileData,
fileName (nullable text). -/
structure Prescription where
  id : Nat
  patientId : Nat
  doctorId : Nat
  prescriptionDate : Nat
  status : String
  notes : Option String
  fileData : Option String
  fileName : Option String
deriving DecidableEq

/-- `InsertPrescription`: `insertPrescriptionSchema` of shared/schema.ts
picks every Prescription field except the id. -/
structure InsertPrescription where
  patientId : Nat
  doctorId : Nat
  prescriptionDate : Nat
  status : String
  notes : Option String
  fileData : Option String
  fileName : Option String
deriving DecidableEq

/-- `Partial<Prescription>`. -/
structure PrescriptionUpdate where
  id : Option Nat := none
  patientId : Option Nat := none
  doctorId : Option Nat := none
  prescriptionDate : Option Nat := none
  status : Option String := none
  notes : Option (Option String) := none
  fileData : Option (Option String) := none
  fileName : Option (Option String) := none
deriving DecidableEq

/-- DoctorSchedule record, from the `doctor_schedules` pgTable of
shared/schema.ts: id (serial), doctorId (integer), day, startTime,
endTime, activityType (text, all notNull). -/
structure DoctorSchedule where
  id : Nat
  doctorId : Nat
  day : String
  startTime : String
  endTime : String
  activityType : String
deriving DecidableEq

/-- `InsertDoctorSchedule`: `insertDoctorScheduleSchema` of
shared/schema.ts picks every DoctorSchedule field except the id. -/
structure InsertDoctorSchedule where
  doctorId : Nat
  day : String
  startTime : String
  endTime : String
  activityType : String
deriving DecidableEq

/-- `Partial<DoctorSchedule>`. -/
structure ScheduleUpdate where
  id : Option Nat := none
  doctorId : Option Nat := none
  day : Option String := none
  startTime : Option String := none
  endTime : Option String := none
  activityType : Option String := none
deriving DecidableEq

/-- JS spread `{ ...a, ...p }` for `Partial<Appointment>`: a field present
in the partial payload overwrites, an absent field is preserved. -/
def mergeAppointment (a : Appointment) (p : AppointmentUpdate) : Appointment :=
  { id := p.id.getD a.id
    patientId := p.patientId.getD a.patientId
    doctorId := p.doctorId.getD a.doctorId
    appointmentDate := p.appointmentDate.getD a.appointmentDate
    duration := p.duration.getD a.duration
    status := p.status.getD a.status
    type := p.type.getD a.type
    notes := p.notes.getD a.notes }

/-- JS spread `{ ...b, ...p }` for `Partial<Bed>`. -/
def mergeBed (b : Bed) (p : BedUpdate) : Bed :=
  { id := p.id.getD b.id
    bedNumber := p.bedNumber.getD b.bedNumber
    ward := p.ward.getD b.ward
    status := p.status.getD b.status
    patientId := p.patientId.getD b.patientId }

/-- JS spread `{ ...r, ...p }` for `Partial<Prescription>`. -/
def mergePrescription (r : Prescription) (p : PrescriptionUpdate) : Prescription :=
  { id := p.id.getD r.id
    patientId := p.patientId.getD r.patientId
    doctorId := p.doctorId.getD r.doctorId
    prescriptionDate := p.prescriptionDate.getD r.prescriptionDate
    status := p.status.getD r.status
    notes := p.notes.getD r.notes
    fileData := p.fileData.getD r.fileData
    fileName := p.fileName.getD r.fileName }

/-- JS spread `{ ...sc, ...p }` for `Partial<DoctorSchedule>`. -/
def mergeSchedule (sc : DoctorSchedule) (p : ScheduleUpdate) : DoctorSchedule :=
  { id := p.id.getD sc.id
    doctorId := p.doctorId.getD sc.doctorId
    day := p.day.getD sc.day
    startTime := p.startTime.getD sc.startTime
    endTime := p.endTime.getD sc.endTime
    activityType := p.activityType.getD sc.activityType }

/-- The in-memory store `MemStorage`: five keyed collections and their
auto-increment counters. -/
structure MemStorage where
  users : JsMap User
  appointments : JsMap Appointment
  beds : JsMap Bed
  prescriptions : JsMap Prescription
  doctorSchedules : JsMap DoctorSchedule
  userIdCounter : Nat
  appointmentIdCounter : Nat
  bedIdCounter : Nat
  prescriptionIdCounter : Nat
  scheduleIdCounter : Nat
deriving DecidableEq

namespace MemStorage

/-- The store as built by the constructor before `initializeData` runs:
empty collections, every counter at 1. -/
def base : MemStorage :=
  { users := [], appointments := [], beds := [], prescriptions := []
    doctorSchedules := [], userIdCounter := 1, appointmentIdCounter := 1
    bedIdCounter := 1, prescriptionIdCounter := 1, scheduleIdCounter := 1 }

def getUser (s : MemStorage) (id : Nat) : Option User :=
  s.users.get id

def getUsersByRole (s : MemStorage) (role : String) : List User :=
  (JsMap.values s.users).filter (fun u => u.role == role)

def createUser (s : MemStorage) (x : InsertUser) : User × MemStorage :=
  let id := s.userIdCounter
  let user : User :=
    { id := id, username := x.username, password := x.password
      email := x.email, fullName := x.fullName, role := x.role
      specialization := x.specialization, contactNumber := x.contactNumber
      address := x.address }
  (user, { s with users := s.users.set id user, userIdCounter := id + 1 })

def getAppointment (s : MemStorage) (id : Nat) : Option Appointment :=
  s.appointments.get id

def getAppointmentsByPatient (s : MemStorage) (patientId : Nat) : List Appointment :=
  (JsMap.values s.appointments).filter (fun a => a.patientId == patientId)

def getAppointmentsByDoctor (s : MemStorage) (doctorId : Nat) : List Appointment :=
  (JsMap.values s.appointments).filter (fun a => a.doctorId == doctorId)

/-- One reference-timezone day in milliseconds. -/
def dayMs : Nat := 86400000

/-- `targetDate.setHours(0, 0, 0, 0)`: floor the timestamp to the start of
its day in the reference timezone of the server. -/
def startOfDay (t : Nat) : Nat := t - t % dayMs

/-- `getAppointmentsByDate`: filter on the half-open interval
[start-of-day, start-of-day + one day). -/
def getAppointmentsByDate (s : MemStorage) (date : Nat) : List Appointment :=
  let targetDate := startOfDay date
  let nextDay := targetDate + dayMs
  (JsMap.values s.appointments).filter
    (fun a => decide (targetDate ≤ a.appointmentDate) && decide (a.appointmentDate < nextDay))

def createAppointment (s : MemStorage) (x : InsertAppointment) : Appointment × MemStorage :=
  let id := s.appointmentIdCounter
  let a : Appointment :=
    { id := id, patientId := x.patientId, doctorId := x.doctorId
      appointmentDate := x.appointmentDate, duration := x.duration
      status := x.status, type := x.type, notes := x.notes }
  (a, { s with appointments := s.appointments.set id a, appointmentIdCounter := id + 1 })

def updateAppointment (s : MemStorage) (id : Nat) (p : AppointmentUpdate) :
    Option Appointment × MemStorage :=
  match s.appointments.get id with
  | none => (none, s)
  | some a =>
    let updated := mergeAppointment a p
    (some updated, { s with appointments := s.appointments.set id updated })

def getBed (s : MemStorage) (id : Nat) : Option Bed :=
  s.beds.get id

def getAllBeds (s : MemStorage) : List Bed :=
  JsMap.values s.beds

def createBed (s : MemStorage) (x : InsertBed) : Bed × MemStorage :=
  let id := s.bedIdCounter
  let b : Bed :=
    { id := id, bedNumber := x.bedNumber, ward := x.ward
      status := x.status, patientId := x.patientId }
  (b, { s with beds := s.beds.set id b, bedIdCounter := id + 1 })

def updateBed (s : MemStorage) (id : Nat) (p : BedUpdate) :
    Option Bed × MemStorage :=
  match s.beds.get id with
  | none => (none, s)
  | some b =>
    let updated := mergeBed b p
    (some updated, { s with beds := s.beds.set id updated })

def getPrescription (s : MemStorage) (id : Nat) : Option Prescription :=
  s.prescriptions.get id

def getPrescriptionsByPatient (s : MemStorage) (patientId : Nat) : List Prescription :=
  (JsMap.values s.prescriptions).filter (fun r => r.patientId == patientId)

def getPrescriptionsByDoctor (s : MemStorage) (doctorId : Nat) : List Prescription :=
  (JsMap.values s.prescriptions).filter (fun r => r.doctorId == doctorId)

def createPrescription (s : MemStorage) (x : InsertPrescription) : Prescription × MemStorage :=
  let id := s.prescriptionIdCounter
  let r : Prescription :=
    { id := id, patientId := x.patientId, doctorId := x.doctorId
      prescriptionDate := x.prescriptionDate, status := x.status
      notes := x.notes, fileData := x.fileData, fileName := x.fileName }
  (r, { s with prescriptions := s.prescriptions.set id r, prescriptionIdCounter := id + 1 })

def updatePrescription (s : MemStorage) (id : Nat) (p : PrescriptionUpdate) :
    Option Prescription × MemStorage :=
  match s.prescriptions.get id with
  | none => (none, s)
  | some r =>
    let updated := mergePrescription r p
    (some updated, { s with prescriptions := s.prescriptions.set id updated })

def getDoctorSchedule (s : MemStorage) (id : Nat) : Option DoctorSchedule :=
  s.doctorSchedules.get id

def getDoctorSchedulesByDoctor (s : MemStorage) (doctorId : Nat) : List DoctorSchedule :=
  (JsMap.values s.doctorSchedules).filter (fun sc => sc.doctorId == doctorId)

def createDoctorSchedule (s : MemStorage) (x : InsertDoctorSchedule) :
    DoctorSchedule × MemStorage :=
  let id := s.scheduleIdCounter
  let sc : DoctorSchedule :=
    { id := id, doctorId := x.doctorId, day := x.day
      startTime := x.startTime, endTime := x.endTime, activityType := x.activityType }
  (sc, { s with doctorSchedules := s.doctorSchedules.set id sc, scheduleIdCounter := id + 1 })

def updateDoctorSchedule (s : MemStorage) (id : Nat) (p : ScheduleUpdate) :
    Option DoctorSchedule × MemStorage :=
  match s.doctorSchedules.get id with
  | none => (none, s)
  | some sc =>
    let updated := mergeSchedule sc p
    (some updated, { s with doctorSchedules := s.doctorSchedules.set id updated })

/-- The four wards, in the order of `initializeData`. -/
def wards : List String := ["general", "icu", "pediatric", "maternity"]

/-- `i.toString().padStart(2, c)`. -/
def padStart2 (c : Char) (str : String) : String :=
  if str.length ≥ 2 then str else String.mk (List.replicate (2 - str.length) c) ++ str

/-- The seed bed payload of iteration `i` of `initializeData`:
`ward = wards[i % wards.length]`, bed number = upper-cased ward initial
followed by `i` zero-padded to two digits. -/
def seedBedInsert (i : Nat) : InsertBed :=
  let ward := wards.getD (i % wards.length) ""
  let wardInitial := (ward.toList.headD ' ').toUpper
  { bedNumber := String.mk [wardInitial] ++ padStart2 '0' (toString i)
    ward := ward, status := "available", patientId := none }

/-- `initializeData`: create the 20 seed beds, `i` running 1..20. -/
def initializeData (s : MemStorage) : MemStorage :=
  (List.range 20).foldl (fun st j => (st.createBed (seedBedInsert (j + 1))).2) s

/-- `new MemStorage()`: the constructor runs `initializeData` on the fresh
store; `export const storage = new MemStorage()`. -/
def storage : MemStorage := initializeData base

end MemStorage

/-- The authenticated caller (`req.user`): id and role. -/
structure AuthUser where
  id : Nat
  role : String
deriving DecidableEq

/-- User record as it appears in a response after the spread
`({ password, ...rest }) => rest`: there is no password field. -/
structure PublicUser where
  id : Nat
  username : String
  email : String
  fullName : String
  role : String
  specialization : Option String
  contactNumber : Option String
  address : Option String
deriving DecidableEq

/-- The spread `({ password, ...rest }) => rest`. -/
def stripPassword (u : User) : PublicUser :=
  { id := u.id, username := u.username, email := u.email
    fullName := u.fullName, role := u.role
    specialization := u.specialization, contactNumber := u.contactNumber
    address := u.address }

/-- `GET /api/users/doctors` (authenticated): doctors with passwords removed. -/
def apiGetUsersDoctors (s : MemStorage) : List PublicUser :=
  (s.getUsersByRole "doctor").map stripPassword

/-- `GET /api/users/patients` (doctor or nurse): patients with passwords
removed. -/
def apiGetUsersPatients (s : MemStorage) : List PublicUser :=
  (s.getUsersByRole "patient").map stripPassword

/-- `GET /api/appointments`: patient sees own-as-patient, doctor sees
own-as-doctor, any other role gets the per-doctor fan-out concatenation. -/
def apiGetAppointments (s : MemStorage) (u : AuthUser) : List Appointment :=
  if u.role = "patient" then s.getAppointmentsByPatient u.id
  else if u.role = "doctor" then s.getAppointmentsByDoctor u.id
  else (s.getUsersByRole "doctor").flatMap (fun d => s.getAppointmentsByDoctor d.id)

/-- `POST /api/appointments` (after schema validation): a patient may only
create with their own patientId; result is (status, body, new store). -/
def apiPostAppointments (s : MemStorage) (u : AuthUser) (x : InsertAppointment) :
    Nat × Option Appointment × MemStorage :=
  if u.role = "patient" ∧ x.patientId ≠ u.id then (403, none, s)
  else
    let (a, s2) := s.createAppointment x
    (201, some a, s2)

/-- `GET /api/prescriptions`: same role fan-out as appointments. -/
def apiGetPrescriptions (s : MemStorage) (u : AuthUser) : List Prescription :=
  if u.role = "patient" then s.getPrescriptionsByPatient u.id
  else if u.role = "doctor" then s.getPrescriptionsByDoctor u.id
  else (s.getUsersByRole "doctor").flatMap (fun d => s.getPrescriptionsByDoctor d.id)

/-- `PUT /api/prescriptions/:id`: `checkRole(["doctor"])`, then 404 if the
record is absent, then 403 unless the doctorId of the EXISTING record equals the
caller id, else merge-update; result is (status, body, new store). -/
def apiPutPrescriptions (s : MemStorage) (u : AuthUser) (id : Nat)
    (body : PrescriptionUpdate) : Nat × Option Prescription × MemStorage :=
  if u.role ≠ "doctor" then (403, none, s)
  else
    match s.getPrescription id with
    | none => (404, none, s)
    | some r =>
      if r.doctorId ≠ u.id then (403, none, s)
      else
        let (updated, s2) := s.updatePrescription id body
        (200, updated, s2)

/-- `GET /api/schedules`: a doctor gets their own entries; every other role
gets the concatenation, doctor by doctor, of the entries of each doctor. -/
def apiGetSchedules (s : MemStorage) (u : AuthUser) : List DoctorSchedule :=
  if u.role = "doctor" then s.getDoctorSchedulesByDoctor u.id
  else (s.getUsersByRole "doctor").flatMap (fun d => s.getDoctorSchedulesByDoctor d.id)

/-- C1 counterexample: in the seed state the bed with id 1 lies in ward
"icu" and carries bed number "I01", not ward "general" with number "G01" as
the claim asserts for the first bed (the loop reads `wards[i % 4]` with `i`
starting at 1, so the cycle starts at "icu", not "general"). -/
theorem seed_bed_one_is_icu_not_general :
    MemStorage.storage.getBed 1 =
      some { id := 1, bedNumber := "I01", ward := "icu"
             status := "available", patientId := none } ∧
    ("I01" ≠ "G01" ∧ "icu" ≠ "general") := by
  constructor
  · rfl
  · constructor <;> decide

/-- C1 amended: immediately after construction the store holds exactly 20
beds, all "available" with no patient; the wards of beds 1..20 cycle
icu, pediatric, maternity, general, icu, ... (bed i gets ward number
i mod 4 of [general, icu, pediatric, maternity]) and the bed numbers are
the ward-initial prefix plus the zero-padded sequence number:
I01, P02, M03, G04, I05, ..., G20. -/
theorem seed_beds_listing :
    MemStorage.storage.getAllBeds =
      [ { id := 1,  bedNumber := "I01", ward := "icu",       status := "available", patientId := none },
        { id := 2,  bedNumber := "P02", ward := "pediatric", status := "available", patientId := none },
        { id := 3,  bedNumber := "M03", ward := "maternity", status := "available", patientId := none },
        { id := 4,  bedNumber := "G04", ward := "general",   status := "available", patientId := none },
        { id := 5,  bedNumber := "I05", ward := "icu",       status := "available", patientId := none },
        { id := 6,  bedNumber := "P06", ward := "pediatric", status := "available", patientId := none },
        { id := 7,  bedNumber := "M07", ward := "maternity", status := "available", patientId := none },
        { id := 8,  bedNumber := "G08", ward := "general",   status := "available", patientId := none },
        { id := 9,  bedNumber := "I09", ward := "icu",       status := "available", patientId := none },
        { id := 10, bedNumber := "P10", ward := "pediatric", status := "available", patientId := none },
        { id := 11, bedNumber := "M11", ward := "maternity", status := "available", patientId := none },
        { id := 12, bedNumber := "G12", ward := "general",   status := "available", patientId := none },
        { id := 13, bedNumber := "I13", ward := "icu",       status := "available", patientId := none },
        { id := 14, bedNumber := "P14", ward := "pediatric", status := "available", patientId := none },
        { id := 15, bedNumber := "M15", ward := "maternity", status := "available", patientId := none },
        { id := 16, bedNumber := "G16", ward := "general",   status := "available", patientId := none },
        { id := 17, bedNumber := "I17", ward := "icu",       status := "available", patientId := none },
        { id := 18, bedNumber := "P18", ward := "pediatric", status := "available", patientId := none },
        { id := 19, bedNumber := "M19", ward := "maternity", status := "available", patientId := none },
        { id := 20, bedNumber := "G20", ward := "general",   status := "available", patientId := none } ] := by
  rfl

/-- C7: for every entity kind, `create(x)` returns a record carrying the
current counter of the collection as its id and every submitted field unchanged,
and `get` at that id on the resulting store returns exactly that record. -/
theorem create_then_get_roundtrip :
    ∀ (s : MemStorage),
      (∀ x : InsertUser,
        (s.createUser x).2.getUser (s.createUser x).1.id = some (s.createUser x).1 ∧
        (s.createUser x).1.id = s.userIdCounter ∧
        (s.createUser x).1.username = x.username ∧
        (s.createUser x).1.password = x.password ∧
        (s.createUser x).1.email = x.email ∧
        (s.createUser x).1.fullName = x.fullName ∧
        (s.createUser x).1.role = x.role ∧
        (s.createUser x).1.specialization = x.specialization ∧
        (s.createUser x).1.contactNumber = x.contactNumber ∧
        (s.createUser x).1.address = x.address) ∧
      (∀ x : InsertAppointment,
        (s.createAppointment x).2.getAppointment (s.createAppointment x).1.id =
          some (s.createAppointment x).1 ∧
        (s.createAppointment x).1.id = s.appointmentIdCounter ∧
        (s.createAppointment x).1.patientId = x.patientId ∧
        (s.createAppointment x).1.doctorId = x.doctorId ∧
        (s.createAppointment x).1.appointmentDate = x.appointmentDate ∧
        (s.createAppointment x).1.duration = x.duration ∧
        (s.createAppointment x).1.status = x.status ∧
        (s.createAppointment x).1.type = x.type ∧
        (s.createAppointment x).1.notes = x.notes) ∧
      (∀ x : InsertBed,
        (s.createBed x).2.getBed (s.createBed x).1.id = some (s.createBed x).1 ∧
        (s.createBed x).1.id = s.bedIdCounter ∧
        (s.createBed x).1.bedNumber = x.bedNumber ∧
        (s.createBed x).1.ward = x.ward ∧
        (s.createBed x).1.status = x.status ∧
        (s.createBed x).1.patientId = x.patientId) ∧
      (∀ x : InsertPrescription,
        (s.createPrescription x).2.getPrescription (s.createPrescription x).1.id =
          some (s.createPrescription x).1 ∧
        (s.createPrescription x).1.id = s.prescriptionIdCounter ∧
        (s.createPrescription x).1.patientId = x.patientId ∧
        (s.createPrescription x).1.doctorId = x.doctorId ∧
        (s.createPrescription x).1.prescriptionDate = x.prescriptionDate ∧
        (s.createPrescription x).1.status = x.status ∧
        (s.createPrescription x).1.notes = x.notes ∧
        (s.createPrescription x).1.fileData = x.fileData ∧
        (s.createPrescription x).1.fileName = x.fileName) ∧
      (∀ x : InsertDoctorSchedule,
        (s.createDoctorSchedule x).2.getDoctorSchedule (s.createDoctorSchedule x).1.id =
          some (s.createDoctorSchedule x).1 ∧
        (s.createDoctorSchedule x).1.id = s.scheduleIdCounter ∧
        (s.createDoctorSchedule x).1.doctorId = x.doctorId ∧
        (s.createDoctorSchedule x).1.day = x.day ∧
        (s.createDoctorSchedule x).1.startTime = x.startTime ∧
        (s.createDoctorSchedule x).1.endTime = x.endTime ∧
        (s.createDoctorSchedule x).1.activityType = x.activityType) := by
  intro s
  refine ⟨fun x => ⟨?_, rfl, rfl, rfl, rfl, rfl, rfl, rfl, rfl, rfl⟩,
          fun x => ⟨?_, rfl, rfl, rfl, rfl, rfl, rfl, rfl, rfl⟩,
          fun x => ⟨?_, rfl, rfl, rfl, rfl, rfl⟩,
          fun x => ⟨?_, rfl, rfl, rfl, rfl, rfl, rfl, rfl, rfl⟩,
          fun x => ⟨?_, rfl, rfl, rfl, rfl, rfl, rfl⟩⟩ <;>
    simp [MemStorage.createUser, MemStorage.getUser,
          MemStorage.createAppointment, MemStorage.getAppointment,
          MemStorage.createBed, MemStorage.getBed,
          MemStorage.createPrescription, MemStorage.getPrescription,
          MemStorage.createDoctorSchedule, MemStorage.getDoctorSchedule,
          JsMap.get_set_self]

/-- C8: `getAppointmentsByDate d` returns exactly the stored appointments
whose timestamp lies in the half-open interval
[start-of-day of d, start-of-day of d + one day): the lower bound is
included, an appointment at exactly the next day at 00:00:00 is excluded. -/
theorem appointments_by_date_halfopen :
    ∀ (s : MemStorage) (d : Nat) (a : Appointment),
      a ∈ s.getAppointmentsByDate d ↔
        a ∈ JsMap.values s.appointments ∧
        MemStorage.startOfDay d ≤ a.appointmentDate ∧
        a.appointmentDate < MemStorage.startOfDay d + MemStorage.dayMs := by
  intro s d a
  simp [MemStorage.getAppointmentsByDate, List.mem_filter, and_assoc]

/-- C9: the doctors-list and patients-list endpoints return the stored
users of the requested role passed through `stripPassword`, whose result
type has no password field, preserves every other field unchanged, and
does not depend on the password of its input. -/
theorem users_lists_no_password :
    ∀ (s : MemStorage),
      apiGetUsersDoctors s = (s.getUsersByRole "doctor").map stripPassword ∧
      apiGetUsersPatients s = (s.getUsersByRole "patient").map stripPassword ∧
      (∀ u : User,
        (stripPassword u).id = u.id ∧
        (stripPassword u).username = u.username ∧
        (stripPassword u).email = u.email ∧
        (stripPassword u).fullName = u.fullName ∧
        (stripPassword u).role = u.role ∧
        (stripPassword u).specialization = u.specialization ∧
        (stripPassword u).contactNumber = u.contactNumber ∧
        (stripPassword u).address = u.address) ∧
      (∀ (u : User) (pw : String),
        stripPassword { u with password := pw } = stripPassword u) := by
  intro s
  exact ⟨rfl, rfl, fun u => ⟨rfl, rfl, rfl, rfl, rfl, rfl, rfl, rfl⟩,
         fun u pw => rfl⟩

/-- Sample appointment used by concrete witnesses. -/
def sampleAppointment : Appointment :=
  { id := 1, patientId := 7, doctorId := 2, appointmentDate := 1700000000000
    duration := 30, status := "scheduled", type := "consultation", notes := none }

/-- Sample bed used by concrete witnesses. -/
def sampleBed : Bed :=
  { id := 1, bedNumber := "G04", ward := "general", status := "available"
    patientId := none }

/-- Sample prescription (owned by doctor 1) used by concrete witnesses. -/
def samplePrescription : Prescription :=
  { id := 1, patientId := 7, doctorId := 1, prescriptionDate := 1700000000000
    status := "active", notes := none, fileData := none, fileName := none }

/-- Sample schedule entry (for doctor 1) used by concrete witnesses. -/
def sampleSchedule : DoctorSchedule :=
  { id := 1, doctorId := 1, day := "monday", startTime := "09:00"
    endTime := "12:00", activityType := "consultation" }

/-- Sample store holding one record of each kind. -/
def sampleStore : MemStorage :=
  { MemStorage.base with
      appointments := [(1, sampleAppointment)]
      beds := [(1, sampleBed)]
      prescriptions := [(1, samplePrescription)]
      doctorSchedules := [(1, sampleSchedule)] }

/-- C5: a caller with role "patient" only ever receives records whose
patientId equals their own id from the appointment and prescription list
endpoints. -/
theorem patient_lists_own_records_only :
    ∀ (s : MemStorage) (pid : Nat),
      (∀ a ∈ apiGetAppointments s { id := pid, role := "patient" },
        a.patientId = pid) ∧
      (∀ r ∈ apiGetPrescriptions s { id := pid, role := "patient" },
        r.patientId = pid) := by
  intro s pid
  constructor
  · intro a ha
    simp [apiGetAppointments, MemStorage.getAppointmentsByPatient,
          List.mem_filter] at ha
    exact ha.2
  · intro r hr
    simp [apiGetPrescriptions, MemStorage.getPrescriptionsByPatient,
          List.mem_filter] at hr
    exact hr.2

/-- C5 witness: in the sample store, patient 7 receives the sample records
and the theorem yields their patientId. -/
theorem patient_lists_own_records_only_witness :
    sampleAppointment ∈ apiGetAppointments sampleStore { id := 7, role := "patient" } ∧
    samplePrescription ∈ apiGetPrescriptions sampleStore { id := 7, role := "patient" } ∧
    sampleAppointment.patientId = 7 ∧
    samplePrescription.patientId = 7 :=
  ⟨by decide, by decide,
   (patient_lists_own_records_only sampleStore 7).1 sampleAppointment (by decide),
   (patient_lists_own_records_only sampleStore 7).2 samplePrescription (by decide)⟩

/-- C4: a patient posting an appointment for a different patientId gets
403 and the store is unchanged; posting with their own patientId yields
201, the created record, and the record is stored. -/
theorem post_appointment_patient_ownership :
    ∀ (s : MemStorage) (u : AuthUser) (x : InsertAppointment),
      u.role = "patient" →
      ((x.patientId ≠ u.id → apiPostAppointments s u x = (403, none, s)) ∧
       (x.patientId = u.id →
          apiPostAppointments s u x =
            (201, some (s.createAppointment x).1, (s.createAppointment x).2) ∧
          (s.createAppointment x).2.getAppointment (s.createAppointment x).1.id =
            some (s.createAppointment x).1)) := by
  intro s u x hrole
  constructor
  · intro hne
    simp [apiPostAppointments, hrole, hne]
  · intro heq
    refine ⟨by simp [apiPostAppointments, hrole, heq], ?_⟩
    simp [MemStorage.createAppointment, MemStorage.getAppointment,
          JsMap.get_set_self]

/-- C4 witness: concrete patient caller 5; a payload for patient 6 is
rejected with the store unchanged, a payload for patient 5 succeeds. -/
theorem post_appointment_patient_ownership_witness :
    apiPostAppointments MemStorage.base { id := 5, role := "patient" }
        { patientId := 6, doctorId := 2, appointmentDate := 0, duration := 30
          status := "scheduled", type := "consultation", notes := none } =
      (403, none, MemStorage.base) ∧
    (apiPostAppointments MemStorage.base { id := 5, role := "patient" }
        { patientId := 5, doctorId := 2, appointmentDate := 0, duration := 30
          status := "scheduled", type := "consultation", notes := none }).1 = 201 := by
  constructor
  · exact (post_appointment_patient_ownership MemStorage.base
      { id := 5, role := "patient" } _ rfl).1 (by decide)
  · have h := (post_appointment_patient_ownership MemStorage.base
      { id := 5, role := "patient" }
      { patientId := 5, doctorId := 2, appointmentDate := 0, duration := 30
        status := "scheduled", type := "consultation", notes := none } rfl).2 rfl
    rw [h.1]

/-- C3: for a doctor caller, `PUT /api/prescriptions/:id` on an existing
record succeeds exactly when the doctorId of the EXISTING record equals the
caller id: otherwise 403 with the store unchanged; on a match the body
is merge-applied and stored; and the status does not depend on the
submitted payload (in particular not on any doctorId inside it). -/
theorem put_prescription_existing_ownership :
    ∀ (s : MemStorage) (u : AuthUser) (k : Nat) (body : PrescriptionUpdate)
      (r : Prescription),
      u.role = "doctor" →
      s.getPrescription k = some r →
      ((r.doctorId ≠ u.id → apiPutPrescriptions s u k body = (403, none, s)) ∧
       (r.doctorId = u.id →
          apiPutPrescriptions s u k body =
            (200, some (mergePrescription r body),
              { s with prescriptions := s.prescriptions.set k (mergePrescription r body) }) ∧
          (apiPutPrescriptions s u k body).2.2.getPrescription k =
            some (mergePrescription r body)) ∧
       (∀ body2 : PrescriptionUpdate,
          (apiPutPrescriptions s u k body).1 = (apiPutPrescriptions s u k body2).1)) := by
  intro s u k body r hrole hget
  have hget2 : s.prescriptions.get k = some r := hget
  refine ⟨?_, ?_, ?_⟩
  · intro hne
    simp [apiPutPrescriptions, hrole, hget, hne]
  · intro heq
    constructor
    · simp [apiPutPrescriptions, hrole, hget, heq,
            MemStorage.updatePrescription, hget2]
    · simp [apiPutPrescriptions, hrole, hget, heq,
            MemStorage.updatePrescription, hget2,
            MemStorage.getPrescription, JsMap.get_set_self]
  · intro body2
    by_cases hd : r.doctorId = u.id <;>
      simp [apiPutPrescriptions, hrole, hget, hd,
            MemStorage.updatePrescription, hget2]

/-- C3 witness: doctor 2 cannot update the sample prescription owned by
doctor 1 (403, store untouched); doctor 1 can (status 200). -/
theorem put_prescription_existing_ownership_witness :
    apiPutPrescriptions sampleStore { id := 2, role := "doctor" } 1
        { status := some "completed" } = (403, none, sampleStore) ∧
    (apiPutPrescriptions sampleStore { id := 1, role := "doctor" } 1
        { status := some "completed" }).1 = 200 := by
  constructor
  · exact (put_prescription_existing_ownership sampleStore
      { id := 2, role := "doctor" } 1 { status := some "completed" }
      samplePrescription rfl (by decide)).1 (by decide)
  · have h := ((put_prescription_existing_ownership sampleStore
      { id := 1, role := "doctor" } 1 { status := some "completed" }
      samplePrescription rfl (by decide)).2.1 rfl).1
    rw [h]

/-- C6: for each of the four updatable kinds, updating an existing record
returns and stores the shallow merge (a field present in the partial
payload takes the payload value, an absent field keeps the stored
record value — the `Option.getD` equations spell this out per field)
while every other collection is untouched; updating a missing id returns
not-found and leaves the whole store unchanged. -/
theorem update_partial_merge :
    ∀ (s : MemStorage) (k : Nat),
      (∀ (r : Appointment) (p : AppointmentUpdate),
        s.getAppointment k = some r →
          (s.updateAppointment k p).1 = some (mergeAppointment r p) ∧
          (s.updateAppointment k p).2.getAppointment k = some (mergeAppointment r p) ∧
          (mergeAppointment r p).patientId = p.patientId.getD r.patientId ∧
          (mergeAppointment r p).doctorId = p.doctorId.getD r.doctorId ∧
          (mergeAppointment r p).appointmentDate = p.appointmentDate.getD r.appointmentDate ∧
          (mergeAppointment r p).duration = p.duration.getD r.duration ∧
          (mergeAppointment r p).status = p.status.getD r.status ∧
          (mergeAppointment r p).type = p.type.getD r.type ∧
          (mergeAppointment r p).notes = p.notes.getD r.notes ∧
          (s.updateAppointment k p).2.users = s.users ∧
          (s.updateAppointment k p).2.beds = s.beds ∧
          (s.updateAppointment k p).2.prescriptions = s.prescriptions ∧
          (s.updateAppointment k p).2.doctorSchedules = s.doctorSchedules) ∧
      (∀ p : AppointmentUpdate,
        s.getAppointment k = none → s.updateAppointment k p = (none, s)) ∧
      (∀ (r : Bed) (p : BedUpdate),
        s.getBed k = some r →
          (s.updateBed k p).1 = some (mergeBed r p) ∧
          (s.updateBed k p).2.getBed k = some (mergeBed r p) ∧
          (mergeBed r p).bedNumber = p.bedNumber.getD r.bedNumber ∧
          (mergeBed r p).ward = p.ward.getD r.ward ∧
          (mergeBed r p).status = p.status.getD r.status ∧
          (mergeBed r p).patientId = p.patientId.getD r.patientId ∧
          (s.updateBed k p).2.users = s.users ∧
          (s.updateBed k p).2.appointments = s.appointments ∧
          (s.updateBed k p).2.prescriptions = s.prescriptions ∧
          (s.updateBed k p).2.doctorSchedules = s.doctorSchedules) ∧
      (∀ p : BedUpdate,
        s.getBed k = none → s.updateBed k p = (none, s)) ∧
      (∀ (r : Prescription) (p : PrescriptionUpdate),
        s.getPrescription k = some r →
          (s.updatePrescription k p).1 = some (mergePrescription r p) ∧
          (s.updatePrescription k p).2.getPrescription k = some (mergePrescription r p) ∧
          (mergePrescription r p).patientId = p.patientId.getD r.patientId ∧
          (mergePrescription r p).doctorId = p.doctorId.getD r.doctorId ∧
          (mergePrescription r p).prescriptionDate = p.prescriptionDate.getD r.prescriptionDate ∧
          (mergePrescription r p).status = p.status.getD r.status ∧
          (mergePrescription r p).notes = p.notes.getD r.notes ∧
          (mergePrescription r p).fileData = p.fileData.getD r.fileData ∧
          (mergePrescription r p).fileName = p.fileName.getD r.fileName ∧
          (s.updatePrescription k p).2.users = s.users ∧
          (s.updatePrescription k p).2.appointments = s.appointments ∧
          (s.updatePrescription k p).2.beds = s.beds ∧
          (s.updatePrescription k p).2.doctorSchedules = s.doctorSchedules) ∧
      (∀ p : PrescriptionUpdate,
        s.getPrescription k = none → s.updatePrescription k p = (none, s)) ∧
      (∀ (r : DoctorSchedule) (p : ScheduleUpdate),
        s.getDoctorSchedule k = some r →
          (s.updateDoctorSchedule k p).1 = some (mergeSchedule r p) ∧
          (s.updateDoctorSchedule k p).2.getDoctorSchedule k = some (mergeSchedule r p) ∧
          (mergeSchedule r p).doctorId = p.doctorId.getD r.doctorId ∧
          (mergeSchedule r p).day = p.day.getD r.day ∧
          (mergeSchedule r p).startTime = p.startTime.getD r.startTime ∧
          (mergeSchedule r p).endTime = p.endTime.getD r.endTime ∧
          (mergeSchedule r p).activityType = p.activityType.getD r.activityType ∧
          (s.updateDoctorSchedule k p).2.users = s.users ∧
          (s.updateDoctorSchedule k p).2.appointments = s.appointments ∧
          (s.updateDoctorSchedule k p).2.beds = s.beds ∧
          (s.updateDoctorSchedule k p).2.prescriptions = s.prescriptions) ∧
      (∀ p : ScheduleUpdate,
        s.getDoctorSchedule k = none → s.updateDoctorSchedule k p = (none, s)) := by
  intro s k
  refine ⟨fun r p h => ?_, fun p h => ?_, fun r p h => ?_, fun p h => ?_,
          fun r p h => ?_, fun p h => ?_, fun r p h => ?_, fun p h => ?_⟩ <;>
    (have h2 := h
     simp only [MemStorage.getAppointment, MemStorage.getBed,
                MemStorage.getPrescription, MemStorage.getDoctorSchedule] at h2
     simp [MemStorage.updateAppointment, MemStorage.getAppointment,
           MemStorage.updateBed, MemStorage.getBed,
           MemStorage.updatePrescription, MemStorage.getPrescription,
           MemStorage.updateDoctorSchedule, MemStorage.getDoctorSchedule,
           mergeAppointment, mergeBed, mergePrescription, mergeSchedule,
           h2, JsMap.get_set_self])

/-- C6 witness: updating the status of the sample appointment merges it, and
updating the missing id 2 leaves the sample store untouched. -/
theorem update_partial_merge_witness :
    (sampleStore.updateAppointment 1 { status := some "completed" }).1 =
      some (mergeAppointment sampleAppointment { status := some "completed" }) ∧
    sampleStore.updateAppointment 2 { status := some "completed" } =
      (none, sampleStore) :=
  ⟨((update_partial_merge sampleStore 1).1 sampleAppointment
      { status := some "completed" } (by decide)).1,
   (update_partial_merge sampleStore 2).2.1
      { status := some "completed" } (by decide)⟩

/-- C10: for each updatable kind, when the partial payload carries no id
field, updating key k keeps the id of the stored record equal to k (given the
stored record agreed with its key); when the payload does carry an id, the
merged record takes the id of the payload — the agreement is not enforced. -/
theorem update_id_agreement :
    ∀ (s : MemStorage) (k : Nat),
      (∀ (r : Appointment) (p : AppointmentUpdate),
        s.getAppointment k = some r → r.id = k → p.id = none →
          Option.map Appointment.id (s.updateAppointment k p).1 = some k ∧
          (s.updateAppointment k p).2.getAppointment k = (s.updateAppointment k p).1) ∧
      (∀ (r : Appointment) (p : AppointmentUpdate) (j : Nat),
        s.getAppointment k = some r → p.id = some j →
          Option.map Appointment.id (s.updateAppointment k p).1 = some j) ∧
      (∀ (r : Bed) (p : BedUpdate),
        s.getBed k = some r → r.id = k → p.id = none →
          Option.map Bed.id (s.updateBed k p).1 = some k ∧
          (s.updateBed k p).2.getBed k = (s.updateBed k p).1) ∧
      (∀ (r : Bed) (p : BedUpdate) (j : Nat),
        s.getBed k = some r → p.id = some j →
          Option.map Bed.id (s.updateBed k p).1 = some j) ∧
      (∀ (r : Prescription) (p : PrescriptionUpdate),
        s.getPrescription k = some r → r.id = k → p.id = none →
          Option.map Prescription.id (s.updatePrescription k p).1 = some k ∧
          (s.updatePrescription k p).2.getPrescription k = (s.updatePrescription k p).1) ∧
      (∀ (r : Prescription) (p : PrescriptionUpdate) (j : Nat),
        s.getPrescription k = some r → p.id = some j →
          Option.map Prescription.id (s.updatePrescription k p).1 = some j) ∧
      (∀ (r : DoctorSchedule) (p : ScheduleUpdate),
        s.getDoctorSchedule k = some r → r.id = k → p.id = none →
          Option.map DoctorSchedule.id (s.updateDoctorSchedule k p).1 = some k ∧
          (s.updateDoctorSchedule k p).2.getDoctorSchedule k = (s.updateDoctorSchedule k p).1) ∧
      (∀ (r : DoctorSchedule) (p : ScheduleUpdate) (j : Nat),
        s.getDoctorSchedule k = some r → p.id = some j →
          Option.map DoctorSchedule.id (s.updateDoctorSchedule k p).1 = some j) := by
  intro s k
  refine ⟨fun r p h hid hp => ?_, fun r p j h hp => ?_,
          fun r p h hid hp => ?_, fun r p j h hp => ?_,
          fun r p h hid hp => ?_, fun r p j h hp => ?_,
          fun r p h hid hp => ?_, fun r p j h hp => ?_⟩ <;>
    (have h2 := h
     simp only [MemStorage.getAppointment, MemStorage.getBed,
                MemStorage.getPrescription, MemStorage.getDoctorSchedule] at h2) <;>
    first
    | (simp [MemStorage.updateAppointment, MemStorage.getAppointment,
             MemStorage.updateBed, MemStorage.getBed,
             MemStorage.updatePrescription, MemStorage.getPrescription,
             MemStorage.updateDoctorSchedule, MemStorage.getDoctorSchedule,
             mergeAppointment, mergeBed, mergePrescription, mergeSchedule,
             h2, hp, hid, JsMap.get_set_self])
    | (simp [MemStorage.updateAppointment, MemStorage.getAppointment,
             MemStorage.updateBed, MemStorage.getBed,
             MemStorage.updatePrescription, MemStorage.getPrescription,
             MemStorage.updateDoctorSchedule, MemStorage.getDoctorSchedule,
             mergeAppointment, mergeBed, mergePrescription, mergeSchedule,
             h2, hp, JsMap.get_set_self])

/-- C10 witness: on the sample bed, a payload without id keeps id 1; a
payload carrying id 9 overwrites the stored id. -/
theorem update_id_agreement_witness :
    Option.map Bed.id (sampleStore.updateBed 1 { status := some "occupied" }).1 =
      some 1 ∧
    Option.map Bed.id
        (sampleStore.updateBed 1 { id := some 9, status := some "occupied" }).1 =
      some 9 :=
  ⟨((update_id_agreement sampleStore 1).2.2.1 sampleBed
      { status := some "occupied" } (by decide) (by decide) rfl).1,
   (update_id_agreement sampleStore 1).2.2.2.1 sampleBed
      { id := some 9, status := some "occupied" } 9 (by decide) rfl⟩

/-- Sample doctor user (id 1) for the schedules fan-out theorems. -/
def doctorUser : User :=
  { id := 1, username := "drsmith", password := "pw", email := "dr@h.example"
    fullName := "Dr Smith", role := "doctor", specialization := some "cardiology"
    contactNumber := none, address := none }

/-- A schedule whose doctorId (42) is the id of no stored doctor user. -/
def orphanSchedule : DoctorSchedule :=
  { id := 2, doctorId := 42, day := "tuesday", startTime := "10:00"
    endTime := "11:00", activityType := "rounds" }

/-- Store with one doctor (id 1), one schedule for them, and one orphan
schedule whose doctorId matches no user. -/
def c2Store : MemStorage :=
  { MemStorage.base with
      users := [(1, doctorUser)]
      doctorSchedules := [(1, sampleSchedule), (2, orphanSchedule)] }

/-- C2 counterexample: the fan-out of `GET /api/schedules` for a nurse
iterates only over users with role "doctor", so a stored schedule whose
doctorId names no doctor user is omitted from the response even though it
is present in the schedules collection. -/
theorem schedules_fanout_omits_orphan :
    orphanSchedule ∈ JsMap.values c2Store.doctorSchedules ∧
    orphanSchedule ∉ apiGetSchedules c2Store { id := 3, role := "nurse" } := by
  decide

theorem sched_count_filter (x : DoctorSchedule) (did : Nat)
    (vs : List DoctorSchedule) :
    List.count x (vs.filter (fun v => v.doctorId == did)) =
      if x.doctorId = did then List.count x vs else 0 := by
  induction vs with
  | nil => simp
  | cons a vs ih =>
    by_cases hxa : x = a
    · subst hxa
      by_cases hpa : x.doctorId = did <;>
        simp [List.filter_cons, List.count_cons, hpa, ih]
    · by_cases hpa : a.doctorId = did <;>
        simp [List.filter_cons, List.count_cons, hpa, hxa, ih]

theorem sched_fanout_count (docs : List User) (vs : List DoctorSchedule)
    (hnd : (docs.map User.id).Nodup) (x : DoctorSchedule) :
    List.count x (docs.flatMap (fun d => vs.filter (fun v => v.doctorId == d.id))) =
      if x.doctorId ∈ docs.map User.id then List.count x vs else 0 := by
  induction docs with
  | nil => simp
  | cons d docs ih =>
    rw [List.map_cons, List.nodup_cons] at hnd
    rw [List.flatMap_cons, List.count_append, sched_count_filter, ih hnd.2]
    by_cases hx : x.doctorId = d.id
    · have hnin : d.id ∉ docs.map User.id := hnd.1
      simp [hx, hnin]
    · simp [hx]

/-- C2 amended: for a caller whose role is neither "patient" nor "doctor",
`GET /api/schedules` is the concatenation, over users with role "doctor"
in store iteration order, of the schedule entries of each doctor; provided the
stored doctor ids are pairwise distinct AND the doctorId of every schedule is
the id of some doctor user, the response is a permutation of the schedules
collection — so it omits nothing and (when the collection has no duplicate
entry) contains no duplicate.  Without the foreign-key premise, schedules
whose doctorId names no doctor user are omitted. -/
theorem schedules_fanout_union :
    ∀ (s : MemStorage) (u : AuthUser),
      u.role ≠ "patient" → u.role ≠ "doctor" →
      ((s.getUsersByRole "doctor").map User.id).Nodup →
      (∀ sc ∈ JsMap.values s.doctorSchedules,
        sc.doctorId ∈ (s.getUsersByRole "doctor").map User.id) →
      apiGetSchedules s u =
        (s.getUsersByRole "doctor").flatMap
          (fun d => s.getDoctorSchedulesByDoctor d.id) ∧
      List.Perm (apiGetSchedules s u) (JsMap.values s.doctorSchedules) ∧
      ((JsMap.values s.doctorSchedules).Nodup → (apiGetSchedules s u).Nodup) ∧
      (∀ sc, sc ∈ apiGetSchedules s u ↔ sc ∈ JsMap.values s.doctorSchedules) := by
  intro s u hp hd hnd hfk
  have hform : apiGetSchedules s u =
      (s.getUsersByRole "doctor").flatMap
        (fun d => s.getDoctorSchedulesByDoctor d.id) := by
    simp [apiGetSchedules, hd]
  have hperm : List.Perm (apiGetSchedules s u) (JsMap.values s.doctorSchedules) := by
    rw [hform, List.perm_iff_count]
    intro x
    have hcnt := sched_fanout_count (s.getUsersByRole "doctor")
      (JsMap.values s.doctorSchedules) hnd x
    simp only [MemStorage.getDoctorSchedulesByDoctor]
    rw [hcnt]
    by_cases hx : x.doctorId ∈ (s.getUsersByRole "doctor").map User.id
    · simp [hx]
    · have hxm : x ∉ JsMap.values s.doctorSchedules := fun hmem => hx (hfk x hmem)
      simp [hx, List.count_eq_zero.mpr hxm]
  exact ⟨hform, hperm, fun hnodup => hperm.symm.nodup hnodup,
         fun sc => hperm.mem_iff⟩

/-- Store with one doctor and one schedule belonging to them. -/
def c2GoodStore : MemStorage :=
  { MemStorage.base with
      users := [(1, doctorUser)]
      doctorSchedules := [(1, sampleSchedule)] }

/-- C2 witness: on the store whose only schedule belongs to the only
doctor, the nurse response is a permutation of the schedules collection. -/
theorem schedules_fanout_union_witness :
    List.Perm (apiGetSchedules c2GoodStore { id := 3, role := "nurse" })
      (JsMap.values c2GoodStore.doctorSchedules) :=
  (schedules_fanout_union c2GoodStore { id := 3, role := "nurse" }
    (by decide) (by decide) (by decide) (by decide)).2.1

end Hospital
